import Mathlib

/-!
Verification development for the ThrivingCare staffing API (src/api.py).

The conversational vetting state machine embedded in the SMS webhook
handler (api.py, handle_incoming_sms, lines 1017-1329) and its HTTP chat
twin (chat_with_candidate, lines 2106-2167) are shallowly embedded here.
Python strings are modeled as lists of characters; the external
collaborators (Twilio client, Anthropic client, jobs queries) are modeled
as an environment record of oracles; the database rows touched by the
handler are modeled as explicit record fields of the handler outcome.
Emoji glyphs occurring inside some source message templates are elided;
no property stated below depends on them.
-/

namespace ThrivingCare

set_option maxRecDepth 100000
set_option maxHeartbeats 1600000

/-- Python `str` modeled as a list of characters. -/
abbrev Str := List Char

/-- A Lean string literal viewed as a Python string value. -/
def lit (s : String) : Str := s.data

/-- The apostrophe character (written via its code point). -/
def apoc : Char := Char.ofNat 39

/-- Python `str.strip()` (ASCII whitespace, which is all the code relies on). -/
def pyStrip (l : Str) : Str :=
  ((l.dropWhile Char.isWhitespace).reverse.dropWhile Char.isWhitespace).reverse

/-- Python `str.upper()` at the ASCII level used by the source. -/
def upper (l : Str) : Str := l.map Char.toUpper

/-- Python `str.lower()` at the ASCII level used by the source. -/
def lower (l : Str) : Str := l.map Char.toLower

/-- Python `needle in hay` substring containment. -/
def containsSub (needle : Str) : Str → Bool
  | [] => needle.isEmpty
  | c :: t => needle.isPrefixOf (c :: t) || containsSub needle t

/-- Python `s.startswith(tuple)`: some element of the tuple is a prefix. -/
def startsWithAny (l : Str) (ps : List Str) : Bool :=
  ps.any (fun p => p.isPrefixOf l)

/-- Python falsy test for an optional string (`None` and `''` are falsy). -/
def isTruthyStr : Option Str → Bool
  | none => false
  | some s => !s.isEmpty

/-- Python `a or b` for an optional string against a default
(`None` and the empty string fall through to the default). -/
def pyOr (o : Option Str) (d : Str) : Str :=
  match o with
  | some s => if s.isEmpty then d else s
  | none => d

/-- Python truthiness of `int(...)`-or-`None` (`None` and `0` are falsy). -/
def truthyNat : Option Nat → Bool
  | none => false
  | some n => n != 0

/-- A word character in the sense of the regex `\b` boundary (`[A-Za-z0-9_]`). -/
def isWordChar (c : Char) : Bool := c.isAlpha || c.isDigit || c == '_'

/-- An ASCII uppercase letter (`[A-Z]`). -/
def isUpperAZ (c : Char) : Bool := 'A' ≤ c && c ≤ 'Z'

/-- Left-to-right scan implementing `re.findall(r'\b([A-Z]{2})\b', text)`:
the boolean argument records whether the previous character was a word
character (so that the leading `\b` can be decided). -/
def stateTokensAux : Bool → Str → List Str
  | _, [] => []
  | _, [_] => []
  | prevWord, a :: b :: rest =>
    if !prevWord && isUpperAZ a && isUpperAZ b &&
        (match rest with | [] => true | c :: _ => !isWordChar c) then
      [a, b] :: stateTokensAux true rest
    else
      stateTokensAux (isWordChar a) (b :: rest)

/-- `re.findall(r'\b([A-Z]{2})\b', text)` (api.py line 1147). -/
def findStateTokens (l : Str) : List Str := stateTokensAux false l

/-- Python `','.join(tokens)`. -/
def joinComma : List Str → Str
  | [] => []
  | [s] => s
  | s :: rest => s ++ ',' :: joinComma rest

/-- The first maximal contiguous digit run of the text, if any
(`re.findall(r'\d+', text)[0]`). -/
def firstDigitRun : Str → Option Str
  | [] => none
  | c :: rest => if c.isDigit then some (c :: rest.takeWhile Char.isDigit)
                 else firstDigitRun rest

/-- Decimal value of a digit run (Python `int` on a digits-only string). -/
def digitsToNat (l : Str) : Nat := l.foldl (fun acc c => acc * 10 + (c.toNat - 48)) 0

/-- First integer extracted from the text, if a digit run is present. -/
def firstNumber (l : Str) : Option Nat := (firstDigitRun l).map digitsToNat

/-- Python `text.replace(',', '')`. -/
def removeCommas (l : Str) : Str := l.filter (fun c => c != ',')

/-- Python list indexing with negative wraparound, as `Option`
(`none` models an `IndexError`). -/
def pyIndex {α : Type} (l : List α) (i : Int) : Option α :=
  if i ≥ 0 then l.get? i.toNat
  else if i.natAbs ≤ l.length then l.get? (l.length - i.natAbs)
  else none

/-! ## Static data: the vetting question sequence (api.py lines 147-178) -/

/-- One entry of `VETTING_QUESTIONS`: id, prompt text, destination candidate
field, 1-based step number. -/
structure Question where
  id : Str
  question : Str
  field : Str
  step : Nat
deriving DecidableEq, Repr

/-- `VETTING_QUESTIONS` (api.py lines 147-178), verbatim. -/
def VETTING_QUESTIONS : List Question :=
  [ { id := lit "licenses"
    , question := lit "What state(s) are you licensed in? (e.g., TX, CA, NY)"
    , field := lit "license_states", step := 1 }
  , { id := lit "experience"
    , question := lit "How many years of experience do you have in your field?"
    , field := lit "years_experience", step := 2 }
  , { id := lit "start_date"
    , question := lit "When are you available to start? (e.g., ASAP, 2 weeks, specific date)"
    , field := lit "available_date", step := 3 }
  , { id := lit "min_pay"
    , question := lit "What is your minimum weekly pay requirement? (Just the number, e.g., 2000)"
    , field := lit "min_weekly_pay", step := 4 }
  , { id := lit "travel"
    , question := lit "Are you open to travel/relocation for assignments? (Yes/No)"
    , field := lit "open_to_travel", step := 5 } ]

/-- The question pending at vetting step `k` (1-based), with an inert default
so the function is total. -/
def questionAt (k : Nat) : Question :=
  (VETTING_QUESTIONS.get? (k - 1)).getD
    { id := [], question := [], field := [], step := 0 }

/-! ## Data model -/

/-- A row of the `candidates` table, restricted to the columns the SMS
webhook and chat endpoint read or write. -/
structure Candidate where
  id : Nat
  first_name : Str
  last_name : Str
  license_type : Option Str
  discipline : Option Str
  home_city : Str
  home_state : Str
  license_states : Option Str
  years_experience : Option Nat
  available_date : Option Str
  min_weekly_pay : Option Nat
  open_to_travel : Option Bool
  ai_vetting_status : Str
  vetting_step : Nat
  active : Bool
  resume_url : Option Str
  specialty : Option Str
deriving DecidableEq, Repr

/-- A row of the `jobs` table as fetched with `RealDictCursor` and passed as
`dict(j)` into the assisted-reply prompt: an association of column names to
printed values. Its content is only ever forwarded to the reply oracle. -/
structure Job where
  row : List (Str × Str)
deriving DecidableEq, Repr

/-- A row appended to `ai_vetting_logs` (api.py lines 1173-1176). -/
structure VettingLog where
  candidate_id : Nat
  question_id : Str
  question : Str
  response : Str
  step : Nat
deriving DecidableEq, Repr

/-- Which branch of `handle_incoming_sms` processed the message, one tag per
commented priority section of the source. -/
inductive Route where
  | unknownSender
  | commandStop
  | commandStart
  | vettingQuestion
  | vettingAnswer
  | vettingIdle
  | yesInterested
  | helpCmd
  | callMe
  | freeEngagement
  | internalError
deriving DecidableEq, Repr

/-- Everything observable about one webhook invocation: the HTTP response,
the branch taken, the candidate row after the transaction, the rows appended
to `ai_vetting_logs`, the `applications` / `pipeline_stages` updates, the
composed reply, and the SMS bodies handed to the Twilio client. -/
structure Outcome where
  status : Nat
  httpBody : Str
  route : Route
  candidate : Option Candidate
  newLogs : List VettingLog
  appAnswersAppended : List (Str × Str)
  appVettingStep : Option Nat
  appCompleted : Bool
  pipelineVetted : Bool
  pipelineContacted : Bool
  response_msg : Option Str
  sent : List Str
deriving DecidableEq, Repr

/-- External collaborators: Twilio and Anthropic client configuration, the
assisted-reply oracle (whose inputs are exactly the data placed into the
prompt: candidate context, message text, fetched jobs; `none` models failure),
and the two jobs queries of the handler. -/
structure Env where
  twilio : Bool
  anthropic : Bool
  aiResponse : Str → Str → List Job → Option Str
  jobsByDiscipline : Str → List Job
  recentJobs : List Job

/-! ## Message templates and reply generation (api.py lines 185-305) -/

/-- The candidate-profile block of the assisted-reply prompt
(api.py lines 220-226); `active` is not among the fields placed there. -/
def candidate_context (c : Candidate) : Str :=
  lit "\nCANDIDATE PROFILE:\n- Name: " ++ c.first_name ++ lit " " ++ c.last_name
    ++ lit "\n- Discipline: " ++ pyOr c.license_type (pyOr c.discipline (lit "Not specified"))
    ++ lit "\n- Home Location: " ++ c.home_city ++ lit ", " ++ c.home_state
    ++ lit "\n- License States: " ++ pyOr c.license_states (lit "Not verified yet")
    ++ lit "\n"

/-- `generate_ai_response` (api.py lines 213-284): `None` without a configured
Anthropic client, otherwise the hosted model's answer (or `None` on failure),
a function of the prompt contents only. -/
def generate_ai_response (env : Env) (c : Candidate) (message : Str) (jobs : List Job) :
    Option Str :=
  if env.anthropic then env.aiResponse (candidate_context c) message jobs else none

/-- `get_fallback_response` (api.py lines 287-304). -/
def get_fallback_response (message : Str) (first_name : Str) : Str :=
  if message.contains '?' then
    lit "Hi " ++ first_name ++
      lit "! Thanks for your question.\n\nA recruiter will follow up with more details within 24 hours.\n\nBrowse all jobs: https://thrivingcarestaffing.com/jobs\n\n- ThrivingCare Team"
  else
    lit "Hi " ++ first_name ++
      lit "! Thanks for reaching out.\n\nA recruiter will follow up with you shortly.\n\nQuestions? Just reply to this message!\n\n- ThrivingCare Team"

/-- The unsubscribe confirmation (api.py line 1054). -/
def unsubscribeMsg : Str :=
  lit "You" ++ [apoc] ++
    lit "ve been unsubscribed from ThrivingCare. Reply START to re-subscribe."

/-- The resubscribe reply (api.py lines 1066-1070). -/
def welcomeBackMsg (first_name : Str) : Str :=
  lit "Welcome back, " ++ first_name ++
    lit "!\n\nYou" ++ [apoc] ++
    lit "re now resubscribed to ThrivingCare job alerts.\n\nBrowse jobs: https://thrivingcarestaffing.com/jobs"

/-- The reply to a tangential question when the assisted reply succeeded
(api.py lines 1129-1132): the generated answer with the pending prompt
appended. -/
def aiWithPromptMsg (ai_answer : Str) (q : Question) : Str :=
  ai_answer ++ lit "\n\n---\nTo continue with your profile: " ++ q.question

/-- The reply to a tangential question when generation failed
(api.py lines 1135-1137). -/
def questionFallbackMsg (first_name : Str) (q : Question) : Str :=
  lit "Great question, " ++ first_name ++
    lit "! A recruiter will follow up with details.\n\nIn the meantime, let" ++ [apoc] ++
    lit "s finish your profile: " ++ q.question

/-- The next-question reply (api.py lines 1194-1196); assigned but then
unconditionally overwritten by the completion message at line 1218. -/
def gotItMsg (q : Question) : Str := lit "Got it!\n\n" ++ q.question

/-- The profile-complete reply (api.py lines 1218-1226). -/
def completionMsg (first_name : Str) : Str :=
  lit "Excellent, " ++ first_name ++
    lit "!\n\nYour profile is complete! We" ++ [apoc] ++
    lit "ll match you with opportunities that fit your preferences.\n\nA recruiter will reach out soon with personalized job matches.\n\nBrowse all jobs: https://thrivingcarestaffing.com/jobs\n\nReply anytime with questions about specific positions!"

/-- The interest reply (api.py lines 1240-1244). -/
def yesMsg (first_name : Str) : Str :=
  lit "Great choice, " ++ first_name ++
    lit "!\n\nA recruiter will reach out within 24 hours to discuss next steps.\n\nView all jobs: https://thrivingcarestaffing.com/jobs"

/-- The HELP reply (api.py lines 1250-1257). -/
def helpMsg (first_name : Str) : Str :=
  lit "Hi " ++ first_name ++
    lit "! Here" ++ [apoc] ++
    lit "s how I can help:\n\nAsk me about any job details (pay, location, requirements)\nReply YES to express interest in a job\nBrowse jobs: thrivingcarestaffing.com/jobs\nNeed a human? Reply CALL ME\n\nReply STOP to unsubscribe."

/-- The recruiter-call reply (api.py lines 1263-1269). -/
def callMeMsg (first_name : Str) : Str :=
  lit "Got it, " ++ first_name ++
    lit "!\n\nA recruiter will call you within 24 hours (M-F 9am-6pm EST).\n\nEmail: hello@thrivingcarestaffing.com\n\n- ThrivingCare Team"

/-- The TwiML acknowledgment body returned on every processed webhook. -/
def xmlAck : Str :=
  lit "<?xml version=" ++ [apoc] ++ lit "1.0" ++ [apoc] ++
    lit " encoding=" ++ [apoc] ++ lit "UTF-8" ++ [apoc] ++
    lit "?><Response></Response>"

/-! ## Inbound message classification during vetting (api.py lines 1085-1095) -/

/-- The interrogative openers tested by `message_body.lower().startswith(...)`
(api.py line 1087). -/
def INTERROGATIVES : List Str :=
  [lit "what", lit "where", lit "when", lit "how", lit "why", lit "which",
   lit "can", lit "do", lit "does", lit "is", lit "are", lit "will",
   lit "would", lit "could", lit "should", lit "tell me", lit "explain"]

/-- `question_phrases` (api.py line 1091). -/
def QUESTION_PHRASES : List Str :=
  [lit "jobs", lit "positions", lit "openings", lit "pay", lit "salary",
   lit "housing", lit "stipend", lit "benefits", lit "location",
   lit "contract", lit "start date", lit "requirements"]

/-- `is_question` (api.py lines 1085-1088). -/
def is_question (message_body : Str) : Bool :=
  message_body.contains '?' || startsWithAny (lower message_body) INTERROGATIVES

/-- `mentions_job_topic` (api.py line 1092). -/
def mentions_job_topic (message_body : Str) : Bool :=
  QUESTION_PHRASES.any (fun p => containsSub p (lower message_body))

/-- The guard of the tangential-question branch
(`is_question or (mentions_job_topic and len(message_body) > 15)`,
api.py line 1095). -/
def classifiedAsQuestion (message_body : Str) : Bool :=
  is_question message_body ||
    (mentions_job_topic message_body && decide (message_body.length > 15))

/-! ## Per-field answer extraction (api.py lines 1144-1170) -/

/-- The affirmative vocabulary for the travel question (api.py line 1169). -/
def YES_VOCAB : List Str :=
  [lit "YES", lit "Y", lit "YEAH", lit "YEP", lit "SURE", lit "OK", lit "OKAY"]

/-- The `candidates` updates of the vetting-answer branch, one case per
`field_name` (api.py lines 1144-1170). A zero extracted for
`years_experience` or `min_weekly_pay` is falsy in `if years:` / `if pay:`
and therefore discarded. -/
def applyExtraction (c : Candidate) (field : Str) (message_body message_upper : Str) :
    Candidate :=
  if field = lit "license_states" then
    let states := findStateTokens (upper message_body)
    let answer_value := if states.isEmpty then message_body else joinComma states
    { c with license_states := some answer_value }
  else if field = lit "years_experience" then
    let years := firstNumber message_body
    if truthyNat years then { c with years_experience := years } else c
  else if field = lit "available_date" then
    { c with available_date := some message_body }
  else if field = lit "min_weekly_pay" then
    let pay := firstNumber (removeCommas message_body)
    if truthyNat pay then { c with min_weekly_pay := pay } else c
  else if field = lit "open_to_travel" then
    { c with open_to_travel := some (decide (message_upper ∈ YES_VOCAB)) }
  else c

/-! ## The SMS webhook handler (api.py lines 1017-1329) -/

/-- Subscription opt-out vocabulary (api.py line 1049). -/
def STOP_WORDS : List Str := [lit "STOP", lit "UNSUBSCRIBE", lit "QUIT"]

/-- Subscription opt-in vocabulary (api.py line 1063). -/
def START_WORDS : List Str := [lit "START", lit "SUBSCRIBE"]

/-- Interest vocabulary (api.py line 1233). -/
def YES_WORDS : List Str := [lit "YES", lit "INTERESTED", lit "Y"]

/-- The guard of the recruiter-call branch (api.py line 1262). -/
def callMeCond (message_upper : Str) : Bool :=
  containsSub (lit "CALL ME") message_upper ||
    (containsSub (lit "CALL") message_upper && containsSub (lit "RECRUITER") message_upper)

/-- An outcome with no effects beyond the TwiML acknowledgment. -/
def baseOutcome (r : Route) (c : Option Candidate) : Outcome :=
  { status := 200, httpBody := xmlAck, route := r, candidate := c,
    newLogs := [], appAnswersAppended := [], appVettingStep := none,
    appCompleted := false, pipelineVetted := false, pipelineContacted := false,
    response_msg := none, sent := [] }

/-- SMS truncation before send (api.py lines 1313-1314). -/
def truncateSms (s : Str) : Str :=
  if s.length > 1500 then s.take 1450 ++ lit "...\n\nReply for more!" else s

/-- The final send step (`if response_msg and twilio_client:`,
api.py lines 1311-1320). -/
def sendSms (env : Env) (m : Option Str) : List Str :=
  match m with
  | none => []
  | some s => if s.isEmpty then [] else if env.twilio then [truncateSms s] else []

/-- Record the composed reply and hand it to the send step. -/
def finishWithReply (env : Env) (o : Outcome) (m : Option Str) : Outcome :=
  { o with response_msg := m, sent := sendSms env m }

/-- The jobs-for-context query pair (api.py lines 1100-1116 and 1277-1294):
jobs matching the discipline, falling back to recent jobs when none match. -/
def fetchJobs (env : Env) (discipline : Str) : List Job :=
  let matching_jobs := env.jobsByDiscipline discipline
  if matching_jobs.isEmpty then env.recentJobs else matching_jobs

/-- `candidate.get('license_type') or candidate.get('discipline') or ''`
(api.py lines 1099 and 1276). -/
def disciplineOf (c : Candidate) : Str := pyOr c.license_type (pyOr c.discipline [])

/-- The reply composed for a tangential question during vetting
(api.py lines 1118-1137): the assisted reply with the pending prompt
appended, or the static fallback (also carrying the pending prompt) when
the generator is unconfigured or failed (`if ai_answer:` is a Python
truthiness test, so an empty generated string also falls back). -/
def tangentialReply (env : Env) (c : Candidate) (message_body : Str)
    (current_question : Question) : Str :=
  let matching_jobs := fetchJobs env (disciplineOf c)
  let ai_answer : Option Str :=
    if env.anthropic then generate_ai_response env c message_body matching_jobs else none
  match ai_answer with
  | some a => if a.isEmpty then questionFallbackMsg c.first_name current_question
              else aiWithPromptMsg a current_question
  | none => questionFallbackMsg c.first_name current_question

/-- PRIORITY 3, tangential-question path (api.py lines 1095-1137). -/
def vettingQuestionBranch (env : Env) (c : Candidate) (message_body : Str)
    (current_question : Question) : Outcome :=
  finishWithReply env (baseOutcome .vettingQuestion (some c))
    (some (tangentialReply env c message_body current_question))

/-- PRIORITY 3, vetting-answer path (api.py lines 1139-1228). The
`response_msg_next` binding mirrors the next-question reply assigned at
line 1194, which line 1218 then overwrites unconditionally (it sits at the
indentation level of line 1187, outside the `if next_step <= ...` branch),
so the composed reply is the completion message after every accepted
answer. -/
def vettingAnswerBranch (env : Env) (c : Candidate) (message_body message_upper : Str)
    (current_question : Question) (current_step : Nat) : Outcome :=
  let c1 := applyExtraction c current_question.field message_body message_upper
  let logEntry : VettingLog :=
    { candidate_id := c.id, question_id := current_question.id,
      question := current_question.question, response := message_body,
      step := current_step }
  let next_step := current_step + 1
  let effects : Outcome :=
    { baseOutcome .vettingAnswer none with
      newLogs := [logEntry],
      appAnswersAppended := [(current_question.id, message_body)],
      appVettingStep := some next_step }
  if next_step ≤ VETTING_QUESTIONS.length then
    let _response_msg_next := gotItMsg (questionAt next_step)
    finishWithReply env
      { effects with candidate := some { c1 with vetting_step := next_step } }
      (some (completionMsg c.first_name))
  else
    let completed : Candidate :=
      { c1 with vetting_step := next_step, ai_vetting_status := lit "completed" }
    finishWithReply env
      { effects with
        candidate := some completed,
        appCompleted := true, pipelineVetted := true }
      (some (completionMsg c.first_name))

/-- PRIORITY 3: the vetting flow (api.py lines 1075-1228). When
`current_step` exceeds the question count nothing happens and no reply is
composed; Python's negative indexing of `VETTING_QUESTIONS[current_step - 1]`
is modeled by `pyIndex`, an out-of-range access landing in the outer
exception handler. -/
def vettingFlow (env : Env) (c : Candidate) (message_body message_upper : Str) : Outcome :=
  let current_step := c.vetting_step
  if current_step ≤ VETTING_QUESTIONS.length then
    match pyIndex VETTING_QUESTIONS ((current_step : Int) - 1) with
    | none => { baseOutcome .internalError none with httpBody := [] }
    | some current_question =>
      if classifiedAsQuestion message_body then
        vettingQuestionBranch env c message_body current_question
      else
        vettingAnswerBranch env c message_body message_upper current_question current_step
  else
    baseOutcome .vettingIdle (some c)

/-- The reply composed in the free-engagement path (api.py lines 1296-1306):
the assisted reply, or the static fallback when the generator is
unconfigured, failed, or produced a falsy (empty) string. -/
def freeReply (env : Env) (c : Candidate) (message_body : Str) : Str :=
  let matching_jobs := fetchJobs env (disciplineOf c)
  let ai : Option Str :=
    if env.anthropic then generate_ai_response env c message_body matching_jobs else none
  match ai with
  | some a => if a.isEmpty then get_fallback_response message_body c.first_name else a
  | none => get_fallback_response message_body c.first_name

/-- PRIORITY 7: assisted reply with static fallback (api.py lines 1274-1306). -/
def freeEngagementBranch (env : Env) (c : Candidate) (message_body : Str) : Outcome :=
  finishWithReply env (baseOutcome .freeEngagement (some c))
    (some (freeReply env c message_body))

/-- `handle_incoming_sms` (api.py lines 1017-1329) as a function of the
environment, the candidate row found for the sender (`none`: unknown sender),
and the raw `Body` form field. -/
def handle_incoming_sms (env : Env) (candidateRow : Option Candidate) (bodyRaw : Str) :
    Outcome :=
  let message_body := pyStrip bodyRaw
  match candidateRow with
  | none => { baseOutcome .unknownSender none with httpBody := [] }
  | some candidate =>
    let message_upper := pyStrip (upper message_body)
    if message_upper ∈ STOP_WORDS then
      { baseOutcome .commandStop (some { candidate with active := false }) with
        sent := if env.twilio then [unsubscribeMsg] else [] }
    else if message_upper ∈ START_WORDS then
      finishWithReply env
        (baseOutcome .commandStart (some { candidate with active := true }))
        (some (welcomeBackMsg candidate.first_name))
    else if candidate.ai_vetting_status = lit "in_progress" then
      vettingFlow env candidate message_body message_upper
    else if message_upper ∈ YES_WORDS then
      finishWithReply env
        { baseOutcome .yesInterested (some candidate) with pipelineContacted := true }
        (some (yesMsg candidate.first_name))
    else if message_upper = lit "HELP" then
      finishWithReply env (baseOutcome .helpCmd (some candidate))
        (some (helpMsg candidate.first_name))
    else if callMeCond message_upper then
      finishWithReply env (baseOutcome .callMe (some candidate))
        (some (callMeMsg candidate.first_name))
    else
      freeEngagementBranch env candidate message_body

/-- The webhook endpoint around the handler body: the `try/except` of
api.py lines 1024-1329 turns any internal error into an empty 200
acknowledgment. -/
def sms_webhook (r : Except Str Outcome) : Outcome :=
  match r with
  | .ok o => o
  | .error _ => { baseOutcome .internalError none with httpBody := [] }

/-- The `message_upper` value the handler computes from the raw `Body` field
(api.py lines 1027 and 1043). -/
def msgUpperOf (bodyRaw : Str) : Str := pyStrip (upper (pyStrip bodyRaw))

/-! ## The chat endpoint (api.py lines 2106-2167) -/

/-- The response of `/api/chat`: reply text, the `next_question` step token,
the `profile_completion` figure, and the `candidate_chat_state.current_step`
value written back (`none` when no truthy `candidate_id` was supplied). -/
structure ChatOutcome where
  response : Str
  next_question : Str
  profile_completion : Nat
  savedStep : Option Str
deriving DecidableEq, Repr

/-- Truthiness of the optional `candidate_id` field (`0` is falsy). -/
def cidTruthy : Option Nat → Bool
  | none => false
  | some n => n != 0

/-- `chat_with_candidate` (api.py lines 2106-2167) as a function of the
request's `candidate_id`, the candidate row found for it, the
`candidate_chat_state.current_step` row found for it, and the message text.
The endpoint keeps its own step token (a question id string) in
`candidate_chat_state`; it reads neither `ai_vetting_status` nor
`vetting_step` and runs neither the classifier nor the extractors. -/
def chat_with_candidate (cid : Option Nat) (candidate_data : Option Candidate)
    (chat_state : Option Str) (message : Str) : ChatOutcome :=
  match chat_state with
  | none =>
    let first_name := match candidate_data with
      | some c => c.first_name
      | none => lit "there"
    let hasResume := match candidate_data with
      | some c => isTruthyStr c.resume_url
      | none => false
    let pair : Str × Str :=
      if hasResume then
        let c := candidate_data.getD
          { id := 0, first_name := [], last_name := [], license_type := none,
            discipline := none, home_city := [], home_state := [],
            license_states := none, years_experience := none,
            available_date := none, min_weekly_pay := none,
            open_to_travel := none, ai_vetting_status := [], vetting_step := 0,
            active := false, resume_url := none, specialty := none }
        ( lit "Welcome " ++ first_name ++
            lit "!\n\nI found info from your resume:\nSpecialty: " ++
            (c.specialty.getD (lit "Not detected")) ++
            lit "\nLocation: " ++ c.home_city ++
            lit "\n\nIs this correct? Reply YES or NO."
        , lit "confirm_resume" )
      else
        ( lit "Welcome " ++ first_name ++
            lit "!\n\nLet me ask a few quick questions to find you the best matches.\n\n" ++
            (questionAt 1).question
        , (questionAt 1).id )
    { response := pair.1, next_question := pair.2, profile_completion := 10,
      savedStep := if cidTruthy cid then some pair.2 else none }
  | some current_step =>
    let msg := lower (pyStrip message)
    let pair : Str × Str :=
      if current_step = lit "confirm_resume" then
        if containsSub (lit "yes") msg then
          ( lit "Great!\n\n" ++ (questionAt 3).question, (questionAt 3).id )
        else
          ( lit "No problem!\n\n" ++ (questionAt 1).question, (questionAt 1).id )
      else
        let current_idx :=
          (VETTING_QUESTIONS.findIdx? (fun q => q.id == current_step)).getD 0
        if current_idx < VETTING_QUESTIONS.length - 1 then
          let next_q := questionAt (current_idx + 2)
          ( lit "Got it!\n\n" ++ next_q.question, next_q.id )
        else
          ( lit "Excellent!\n\nYour profile is updated. We" ++ [apoc] ++
              lit "ll text you when we find matching positions!\n\nBrowse jobs: https://thrivingcarestaffing.com/jobs"
          , lit "complete" )
    { response := pair.1, next_question := pair.2, profile_completion := 25,
      savedStep := if cidTruthy cid then some pair.2 else none }

/-! ## Concrete fixtures used by witnesses and counterexamples -/

/-- An environment with Twilio configured and the Anthropic client absent
(so the assisted-reply generator is unavailable and all fallbacks fire). -/
def sampleEnv : Env :=
  { twilio := true, anthropic := false, aiResponse := fun _ _ _ => none,
    jobsByDiscipline := fun _ => [], recentJobs := [] }

/-- An environment with a configured, succeeding assisted-reply generator. -/
def aiEnv : Env :=
  { twilio := true, anthropic := true,
    aiResponse := fun _ _ _ => some (lit "Our Austin contract pays 2100 weekly."),
    jobsByDiscipline := fun _ => [], recentJobs := [] }

/-- A candidate mid-vetting at step 1. -/
def sampleCandidate : Candidate :=
  { id := 7, first_name := lit "Ana", last_name := lit "Lee",
    license_type := some (lit "RN"), discipline := none,
    home_city := lit "Austin", home_state := lit "TX",
    license_states := none, years_experience := none, available_date := none,
    min_weekly_pay := none, open_to_travel := none,
    ai_vetting_status := lit "in_progress", vetting_step := 1, active := true,
    resume_url := none, specialty := none }

/-- The same candidate mid-vetting at step 3. -/
def midVetCandidate : Candidate := { sampleCandidate with vetting_step := 3 }

/-- The same candidate after completing vetting. -/
def completedCandidate : Candidate :=
  { sampleCandidate with ai_vetting_status := lit "completed", vetting_step := 6 }

/-! ## Claim theorems -/

/-- C1: the state-mutation half of the claim holds on the code — for a
candidate mid-vetting at step 1 (so step + 1 is within the five questions)
whose message `"TX, CA"` is classified as a vetting answer, the handler
writes the extracted `license_states` value, appends the step-1 vetting-log
row and sets `vetting_step` to 2 — but the composed and sent reply is the
profile-complete message, not the prompt of question 2: the next-question
reply built at api.py line 1194 is dead, unconditionally overwritten by the
completion message at line 1218. -/
theorem C1_reply_is_completion_message :
    (handle_incoming_sms sampleEnv (some sampleCandidate) (lit "TX, CA")).route
        = Route.vettingAnswer
    ∧ (handle_incoming_sms sampleEnv (some sampleCandidate) (lit "TX, CA")).candidate
        = some { sampleCandidate with
                 license_states := some (lit "TX,CA"), vetting_step := 2 }
    ∧ (handle_incoming_sms sampleEnv (some sampleCandidate) (lit "TX, CA")).newLogs
        = [{ candidate_id := 7, question_id := lit "licenses",
             question := (questionAt 1).question, response := lit "TX, CA", step := 1 }]
    ∧ (handle_incoming_sms sampleEnv (some sampleCandidate) (lit "TX, CA")).appVettingStep
        = some 2
    ∧ (handle_incoming_sms sampleEnv (some sampleCandidate) (lit "TX, CA")).response_msg
        = some (completionMsg (lit "Ana"))
    ∧ (handle_incoming_sms sampleEnv (some sampleCandidate) (lit "TX, CA")).sent
        = [completionMsg (lit "Ana")]
    ∧ (handle_incoming_sms sampleEnv (some sampleCandidate) (lit "TX, CA")).response_msg
        ≠ some (gotItMsg (questionAt 2))
    ∧ containsSub (questionAt 2).question (completionMsg (lit "Ana")) = false := by
  refine ⟨rfl, by decide, by decide, rfl, rfl, rfl, by decide, by decide⟩

/-- C2 fails on the code: a candidate mid-vetting at SMS step 3 (pending
question `start_date`) who opens the web chat with no saved chat state is
not resumed at step 3 — the chat endpoint greets them and asks question 1
(`licenses`), and its reply nowhere contains the step-3 prompt, while the
SMS transport still replies around the step-3 prompt for the same state. -/
theorem C2_counterexample :
    midVetCandidate.ai_vetting_status = lit "in_progress"
    ∧ midVetCandidate.vetting_step = 3
    ∧ (chat_with_candidate (some 7) (some midVetCandidate) none (lit "")).next_question
        = lit "licenses"
    ∧ lit "licenses" ≠ (questionAt 3).id
    ∧ containsSub (questionAt 3).question
        (chat_with_candidate (some 7) (some midVetCandidate) none (lit "")).response = false
    ∧ (handle_incoming_sms sampleEnv (some midVetCandidate) (lit "what is the pay?")).response_msg
        = some (questionFallbackMsg (lit "Ana") (questionAt 3)) := by
  refine ⟨rfl, rfl, by decide, by decide, by decide, rfl⟩

/-- C2 amended: the two transports do not share transition logic or state.
The chat endpoint's reply and state write are independent of the persisted
`vetting_step` (it consults only its own `candidate_chat_state` step token),
and with no saved chat state and no resume on file it starts from question 1
regardless of how far SMS vetting has progressed. -/
theorem C2_transports_do_not_share_state (cid : Option Nat) (c : Candidate)
    (s1 s2 : Nat) (st : Option Str) (m : Str) :
    chat_with_candidate cid (some { c with vetting_step := s1 }) st m
      = chat_with_candidate cid (some { c with vetting_step := s2 }) st m
    ∧ (isTruthyStr c.resume_url = false →
        (chat_with_candidate cid (some c) none m).next_question = (questionAt 1).id
        ∧ (chat_with_candidate cid (some c) none m).response
            = lit "Welcome " ++ c.first_name ++
                lit "!\n\nLet me ask a few quick questions to find you the best matches.\n\n" ++
                (questionAt 1).question) := by
  constructor
  · cases st <;> cases c <;> rfl
  · intro h
    cases c
    simp only [chat_with_candidate, isTruthyStr] at *
    rw [h]
    exact ⟨rfl, rfl⟩

/-- Witness for the amended C2 at concrete inputs: steps 3 and 5 give the
same chat outcome, and the chat conversation starts at question 1. -/
theorem C2_transports_do_not_share_state_witness :
    chat_with_candidate (some 7) (some { midVetCandidate with vetting_step := 3 }) none (lit "hi")
      = chat_with_candidate (some 7) (some { midVetCandidate with vetting_step := 5 }) none (lit "hi")
    ∧ isTruthyStr midVetCandidate.resume_url = false
    ∧ (chat_with_candidate (some 7) (some midVetCandidate) none (lit "hi")).next_question
        = (questionAt 1).id := by
  have h := C2_transports_do_not_share_state (some 7) midVetCandidate 3 5 none (lit "hi")
  exact ⟨h.1, by decide, (h.2 (by decide)).1⟩

/-! ## Dispatch-reduction lemmas (shared by several claims) -/

/-- When the message is not a subscription command and the candidate is
mid-vetting, the handler runs the vetting flow. -/
lemma handle_eq_vettingFlow (env : Env) (c : Candidate) (raw : Str)
    (h3 : msgUpperOf raw ∉ STOP_WORDS) (h4 : msgUpperOf raw ∉ START_WORDS)
    (h1 : c.ai_vetting_status = lit "in_progress") :
    handle_incoming_sms env (some c) raw
      = vettingFlow env c (pyStrip raw) (msgUpperOf raw) := by
  simp only [msgUpperOf] at h3 h4
  simp only [handle_incoming_sms, msgUpperOf]
  rw [if_neg h3, if_neg h4, if_pos h1]

/-- The indexing `VETTING_QUESTIONS[current_step - 1]` succeeds at every
valid step and yields the pending question. -/
lemma pyIndex_questionAt (k : Nat) (hlo : 1 ≤ k) (hhi : k ≤ 5) :
    pyIndex VETTING_QUESTIONS ((k : Int) - 1) = some (questionAt k) := by
  interval_cases k <;> decide

/-- At a valid step, a message classified as a question runs the
tangential-question path on the pending question. -/
lemma vettingFlow_eq_question (env : Env) (c : Candidate) (mb mu : Str)
    (hlo : 1 ≤ c.vetting_step) (hhi : c.vetting_step ≤ 5)
    (hq : classifiedAsQuestion mb = true) :
    vettingFlow env c mb mu
      = vettingQuestionBranch env c mb (questionAt c.vetting_step) := by
  unfold vettingFlow
  generalize hk : c.vetting_step = k at hlo hhi ⊢
  rw [if_pos (le_trans hhi (by decide)), pyIndex_questionAt k hlo hhi]
  change (if classifiedAsQuestion mb = true then
            vettingQuestionBranch env c mb (questionAt k)
          else vettingAnswerBranch env c mb mu (questionAt k) k)
      = vettingQuestionBranch env c mb (questionAt k)
  rw [if_pos hq]

/-- At a valid step, a message classified as an answer runs the
vetting-answer path on the pending question. -/
lemma vettingFlow_eq_answer (env : Env) (c : Candidate) (mb mu : Str)
    (hlo : 1 ≤ c.vetting_step) (hhi : c.vetting_step ≤ 5)
    (hq : classifiedAsQuestion mb = false) :
    vettingFlow env c mb mu
      = vettingAnswerBranch env c mb mu (questionAt c.vetting_step) c.vetting_step := by
  unfold vettingFlow
  generalize hk : c.vetting_step = k at hlo hhi ⊢
  rw [if_pos (le_trans hhi (by decide)), pyIndex_questionAt k hlo hhi]
  change (if classifiedAsQuestion mb = true then
            vettingQuestionBranch env c mb (questionAt k)
          else vettingAnswerBranch env c mb mu (questionAt k) k)
      = vettingAnswerBranch env c mb mu (questionAt k) k
  rw [if_neg (by simp [hq])]

/-- When the message is no command, the candidate is not mid-vetting, and
none of the YES/HELP/CALL-ME vocabularies match, the handler runs the
free-engagement path. -/
lemma handle_eq_freeEngagement (env : Env) (c : Candidate) (raw : Str)
    (h3 : msgUpperOf raw ∉ STOP_WORDS) (h4 : msgUpperOf raw ∉ START_WORDS)
    (h1 : c.ai_vetting_status ≠ lit "in_progress")
    (h5 : msgUpperOf raw ∉ YES_WORDS) (h6 : msgUpperOf raw ≠ lit "HELP")
    (h7 : callMeCond (msgUpperOf raw) = false) :
    handle_incoming_sms env (some c) raw
      = freeEngagementBranch env c (pyStrip raw) := by
  simp only [msgUpperOf] at h3 h4 h5 h6 h7
  simp only [handle_incoming_sms, msgUpperOf]
  rw [if_neg h3, if_neg h4, if_neg h1, if_neg h5, if_neg h6, if_neg (by simp [h7])]

/-- C3 fails on the code as stated: subscription commands are not the only
exception after completion — a completed candidate who sends `HELP` is
routed to the HELP command branch with its static capability reply, not to
free engagement. -/
theorem C3_counterexample :
    completedCandidate.ai_vetting_status = lit "completed"
    ∧ msgUpperOf (lit "HELP") ∉ STOP_WORDS
    ∧ msgUpperOf (lit "HELP") ∉ START_WORDS
    ∧ (handle_incoming_sms sampleEnv (some completedCandidate) (lit "HELP")).route
        = Route.helpCmd
    ∧ (handle_incoming_sms sampleEnv (some completedCandidate) (lit "HELP")).route
        ≠ Route.freeEngagement
    ∧ (handle_incoming_sms sampleEnv (some completedCandidate) (lit "HELP")).response_msg
        = some (helpMsg (lit "Ana")) := by
  refine ⟨rfl, by decide, by decide, rfl, by decide, rfl⟩

/-- C3 amended: answering the final question (step 5) transitions
`ai_vetting_status` to `completed` and `vetting_step` to 6 (with the
application marked completed); and after completion every inbound message is
routed to free engagement unless it matches a subscription command, the
YES/INTERESTED interest vocabulary, HELP, or the CALL-ME patterns. -/
theorem C3_completion_then_free_engagement (env env2 : Env) (c c2 : Candidate)
    (raw raw2 : Str)
    (h1 : c.ai_vetting_status = lit "in_progress") (h2 : c.vetting_step = 5)
    (h3 : msgUpperOf raw ∉ STOP_WORDS) (h4 : msgUpperOf raw ∉ START_WORDS)
    (h5 : classifiedAsQuestion (pyStrip raw) = false)
    (g1 : c2.ai_vetting_status = lit "completed")
    (g2 : msgUpperOf raw2 ∉ STOP_WORDS) (g3 : msgUpperOf raw2 ∉ START_WORDS)
    (g4 : msgUpperOf raw2 ∉ YES_WORDS) (g5 : msgUpperOf raw2 ≠ lit "HELP")
    (g6 : callMeCond (msgUpperOf raw2) = false) :
    ((handle_incoming_sms env (some c) raw).candidate.map Candidate.ai_vetting_status
        = some (lit "completed")
      ∧ (handle_incoming_sms env (some c) raw).candidate.map Candidate.vetting_step
        = some 6
      ∧ (handle_incoming_sms env (some c) raw).route = Route.vettingAnswer
      ∧ (handle_incoming_sms env (some c) raw).appCompleted = true)
    ∧ (handle_incoming_sms env2 (some c2) raw2).route = Route.freeEngagement := by
  constructor
  · rw [handle_eq_vettingFlow env c raw h3 h4 h1,
      vettingFlow_eq_answer env c (pyStrip raw) (msgUpperOf raw) (by omega) (by omega) h5,
      h2]
    simp only [vettingAnswerBranch]
    rw [if_neg (by decide)]
    exact ⟨rfl, rfl, rfl, rfl⟩
  · rw [handle_eq_freeEngagement env2 c2 raw2 g2 g3 (by rw [g1]; decide) g4 g5 g6]
    rfl

/-- Witness for the amended C3: a step-5 candidate answering `"yes"` is
completed, and a completed candidate sending `"hello there"` lands in free
engagement. -/
theorem C3_completion_then_free_engagement_witness :
    (handle_incoming_sms sampleEnv (some { sampleCandidate with vetting_step := 5 })
        (lit "yes")).candidate.map Candidate.ai_vetting_status = some (lit "completed")
    ∧ (handle_incoming_sms sampleEnv (some { sampleCandidate with vetting_step := 5 })
        (lit "yes")).candidate.map Candidate.vetting_step = some 6
    ∧ (handle_incoming_sms sampleEnv (some completedCandidate) (lit "hello there")).route
        = Route.freeEngagement := by
  have h := C3_completion_then_free_engagement sampleEnv sampleEnv
    { sampleCandidate with vetting_step := 5 } completedCandidate
    (lit "yes") (lit "hello there")
    rfl rfl (by decide) (by decide) (by decide)
    rfl (by decide) (by decide) (by decide) (by decide) (by decide)
  exact ⟨h.1.1, h.1.2.1, h.2⟩

/-- Every reply composed for a tangential question ends with the pending
question's prompt. -/
lemma tangentialReply_ends_with_prompt (env : Env) (c : Candidate) (mb : Str)
    (q : Question) : ∃ pre : Str, tangentialReply env c mb q = pre ++ q.question := by
  simp only [tangentialReply]
  cases hai : (if env.anthropic then generate_ai_response env c mb (fetchJobs env (disciplineOf c)) else none) with
  | none =>
    refine ⟨lit "Great question, " ++ c.first_name ++
      (lit "! A recruiter will follow up with details.\n\nIn the meantime, let" ++
        ([apoc] ++ lit "s finish your profile: ")), ?_⟩
    simp [questionFallbackMsg, List.append_assoc]
  | some a =>
    by_cases he : a.isEmpty
    · refine ⟨lit "Great question, " ++ c.first_name ++
        (lit "! A recruiter will follow up with details.\n\nIn the meantime, let" ++
          ([apoc] ++ lit "s finish your profile: ")), ?_⟩
      simp [he, questionFallbackMsg, List.append_assoc]
    · refine ⟨a ++ lit "\n\n---\nTo continue with your profile: ", ?_⟩
      simp [he, aiWithPromptMsg, List.append_assoc]

/-- C4: while vetting is in progress at a valid step, a message classified
as a tangential question (and not a subscription command) leaves the
candidate row entirely unchanged, appends no vetting-log row and no
application answer, and the composed reply ends with the still-pending
question's prompt (appended to the generated answer or to the static
fallback). -/
theorem C4_tangential_question_is_frame_free (env : Env) (c : Candidate) (raw : Str)
    (h1 : c.ai_vetting_status = lit "in_progress")
    (hlo : 1 ≤ c.vetting_step) (hhi : c.vetting_step ≤ 5)
    (h3 : msgUpperOf raw ∉ STOP_WORDS) (h4 : msgUpperOf raw ∉ START_WORDS)
    (hq : classifiedAsQuestion (pyStrip raw) = true) :
    (handle_incoming_sms env (some c) raw).route = Route.vettingQuestion
    ∧ (handle_incoming_sms env (some c) raw).candidate = some c
    ∧ (handle_incoming_sms env (some c) raw).newLogs = []
    ∧ (handle_incoming_sms env (some c) raw).appAnswersAppended = []
    ∧ (handle_incoming_sms env (some c) raw).appVettingStep = none
    ∧ ∃ pre : Str, (handle_incoming_sms env (some c) raw).response_msg
        = some (pre ++ (questionAt c.vetting_step).question) := by
  rw [handle_eq_vettingFlow env c raw h3 h4 h1,
    vettingFlow_eq_question env c (pyStrip raw) (msgUpperOf raw) hlo hhi hq]
  refine ⟨rfl, rfl, rfl, rfl, rfl, ?_⟩
  obtain ⟨pre, hpre⟩ :=
    tangentialReply_ends_with_prompt env c (pyStrip raw) (questionAt c.vetting_step)
  exact ⟨pre, congrArg some hpre⟩

/-- Witness for C4: a candidate at step 4 asking about pay keeps their row
and step, and the fallback reply ends with the step-4 prompt. -/
theorem C4_tangential_question_is_frame_free_witness :
    (handle_incoming_sms sampleEnv (some { sampleCandidate with vetting_step := 4 })
        (lit "what is the pay like in Austin?")).candidate
      = some { sampleCandidate with vetting_step := 4 }
    ∧ ∃ pre : Str,
        (handle_incoming_sms sampleEnv (some { sampleCandidate with vetting_step := 4 })
            (lit "what is the pay like in Austin?")).response_msg
          = some (pre ++ (questionAt 4).question) := by
  have h := C4_tangential_question_is_frame_free sampleEnv
    { sampleCandidate with vetting_step := 4 } (lit "what is the pay like in Austin?")
    rfl (by decide) (by decide) (by decide) (by decide) (by decide)
  exact ⟨h.2.1, h.2.2.2.2.2⟩

/-- C5: for every candidate state and environment, a message whose
normalized text equals `STOP` is handled by the opt-out command branch
before any other processing: the only state change is `active := false`, no
log or application rows are touched, no reply is composed by the later
stages (only the fixed unsubscribe confirmation is sent when Twilio is
configured), and the webhook acknowledges with the TwiML body. -/
theorem C5_stop_always_classified_as_command (env : Env) (c : Candidate) (raw : Str)
    (h : msgUpperOf raw = lit "STOP") :
    (handle_incoming_sms env (some c) raw).route = Route.commandStop
    ∧ (handle_incoming_sms env (some c) raw).candidate = some { c with active := false }
    ∧ (handle_incoming_sms env (some c) raw).newLogs = []
    ∧ (handle_incoming_sms env (some c) raw).appAnswersAppended = []
    ∧ (handle_incoming_sms env (some c) raw).appVettingStep = none
    ∧ (handle_incoming_sms env (some c) raw).appCompleted = false
    ∧ (handle_incoming_sms env (some c) raw).pipelineVetted = false
    ∧ (handle_incoming_sms env (some c) raw).pipelineContacted = false
    ∧ (handle_incoming_sms env (some c) raw).response_msg = none
    ∧ (handle_incoming_sms env (some c) raw).sent
        = (if env.twilio then [unsubscribeMsg] else [])
    ∧ (handle_incoming_sms env (some c) raw).httpBody = xmlAck
    ∧ (handle_incoming_sms env (some c) raw).status = 200 := by
  have h' : pyStrip (upper (pyStrip raw)) = lit "STOP" := h
  simp only [handle_incoming_sms]
  rw [h', if_pos (show lit "STOP" ∈ STOP_WORDS by decide)]
  exact ⟨rfl, rfl, rfl, rfl, rfl, rfl, rfl, rfl, rfl, rfl, rfl, rfl⟩

/-- Witness for C5: `" stop "` from a mid-vetting candidate matching the
tangential keyword state is still the opt-out command. -/
theorem C5_stop_always_classified_as_command_witness :
    msgUpperOf (lit " stop ") = lit "STOP"
    ∧ (handle_incoming_sms sampleEnv (some midVetCandidate) (lit " stop ")).route
        = Route.commandStop
    ∧ (handle_incoming_sms sampleEnv (some midVetCandidate) (lit " stop ")).candidate
        = some { midVetCandidate with active := false } := by
  have h := C5_stop_always_classified_as_command sampleEnv midVetCandidate
    (lit " stop ") (by decide)
  exact ⟨by decide, h.1, h.2.1⟩

/-- C6: `STOP` at any vetting step only flips `active` to `false` — the
resulting row is exactly the old row with `active := false`, so
`vetting_step`, `ai_vetting_status` and every profile field are untouched —
and a subsequent `START` on that row restores `active := true` without
resetting vetting progress. -/
theorem C6_optout_independent_of_vetting (env env2 : Env) (c : Candidate)
    (rawStop rawStart : Str)
    (hstop : msgUpperOf rawStop = lit "STOP")
    (hstart : msgUpperOf rawStart = lit "START") :
    (handle_incoming_sms env (some c) rawStop).candidate
      = some { c with active := false }
    ∧ (handle_incoming_sms env2 (some { c with active := false }) rawStart).candidate
      = some { c with active := true }
    ∧ (handle_incoming_sms env2 (some { c with active := false }) rawStart).candidate.map
        Candidate.vetting_step = some c.vetting_step
    ∧ (handle_incoming_sms env2 (some { c with active := false }) rawStart).candidate.map
        Candidate.ai_vetting_status = some c.ai_vetting_status
    ∧ (handle_incoming_sms env2 (some { c with active := false }) rawStart).newLogs = []
    ∧ (handle_incoming_sms env (some c) rawStop).newLogs = [] := by
  have hstop' : pyStrip (upper (pyStrip rawStop)) = lit "STOP" := hstop
  have hstart' : pyStrip (upper (pyStrip rawStart)) = lit "START" := hstart
  constructor
  · simp only [handle_incoming_sms]
    rw [hstop', if_pos (show lit "STOP" ∈ STOP_WORDS by decide)]
    rfl
  · simp only [handle_incoming_sms]
    rw [hstart', if_neg (show lit "START" ∉ STOP_WORDS by decide),
      if_pos (show lit "START" ∈ START_WORDS by decide)]
    refine ⟨rfl, rfl, rfl, rfl, ?_⟩
    rw [hstop', if_pos (show lit "STOP" ∈ STOP_WORDS by decide)]
    rfl

/-- Witness for C6 at step 3: opting out then back in preserves the step. -/
theorem C6_optout_independent_of_vetting_witness :
    (handle_incoming_sms sampleEnv (some midVetCandidate) (lit "STOP")).candidate
      = some { midVetCandidate with active := false }
    ∧ (handle_incoming_sms sampleEnv (some { midVetCandidate with active := false })
        (lit "START")).candidate = some { midVetCandidate with active := true } := by
  have h := C6_optout_independent_of_vetting sampleEnv sampleEnv midVetCandidate
    (lit "STOP") (lit "START") (by decide) (by decide)
  exact ⟨h.1, h.2.1⟩

/-- The tangential-question condition exactly as the claim spells it:
a `?` anywhere, or an interrogative opener, or a job keyword together with
a length above the threshold (15). -/
def claimTangential (m : Str) : Bool :=
  m.contains '?'
  || startsWithAny (lower m)
      [lit "what", lit "where", lit "when", lit "how", lit "why", lit "which",
       lit "can", lit "do", lit "does", lit "is", lit "are", lit "will",
       lit "would", lit "could", lit "should", lit "tell me", lit "explain"]
  || (([lit "jobs", lit "positions", lit "openings", lit "pay", lit "salary",
        lit "housing", lit "stipend", lit "benefits", lit "location",
        lit "contract", lit "start date", lit "requirements"].any
          (fun p => containsSub p (lower m)))
      && decide (m.length > 15))

/-- The claim's spelled-out condition agrees with the handler's inline one. -/
lemma claimTangential_eq (m : Str) : claimTangential m = classifiedAsQuestion m := rfl

/-- The vetting-answer path always reports the vetting-answer route. -/
lemma vettingAnswerBranch_route (env : Env) (c : Candidate) (mb mu : Str)
    (q : Question) (k : Nat) :
    (vettingAnswerBranch env c mb mu q k).route = Route.vettingAnswer := by
  simp only [vettingAnswerBranch]
  by_cases h : k + 1 ≤ VETTING_QUESTIONS.length
  · rw [if_pos h]; rfl
  · rw [if_neg h]; rfl

/-- C7: while vetting is in progress at a valid step and the message is not
a subscription command, the handler takes the tangential-question path
exactly when the message contains a `?`, or opens with one of the listed
interrogative words, or mentions a job keyword and is longer than the
threshold; otherwise it takes the vetting-answer path. -/
theorem C7_classifier_characterization (env : Env) (c : Candidate) (raw : Str)
    (h1 : c.ai_vetting_status = lit "in_progress")
    (hlo : 1 ≤ c.vetting_step) (hhi : c.vetting_step ≤ 5)
    (h3 : msgUpperOf raw ∉ STOP_WORDS) (h4 : msgUpperOf raw ∉ START_WORDS) :
    ((handle_incoming_sms env (some c) raw).route = Route.vettingQuestion
      ↔ claimTangential (pyStrip raw) = true)
    ∧ ((handle_incoming_sms env (some c) raw).route = Route.vettingAnswer
      ↔ claimTangential (pyStrip raw) = false) := by
  rw [handle_eq_vettingFlow env c raw h3 h4 h1, claimTangential_eq]
  cases hcq : classifiedAsQuestion (pyStrip raw) with
  | true =>
    rw [vettingFlow_eq_question env c (pyStrip raw) (msgUpperOf raw) hlo hhi hcq]
    constructor
    · simp [vettingQuestionBranch, finishWithReply, baseOutcome]
    · simp [vettingQuestionBranch, finishWithReply, baseOutcome]
  | false =>
    rw [vettingFlow_eq_answer env c (pyStrip raw) (msgUpperOf raw) hlo hhi hcq]
    constructor
    · simp [vettingAnswerBranch_route]
    · simp [vettingAnswerBranch_route]

/-- Witness for C7: at step 4, a pay question with a `?` goes to the
tangential path, while a bare `"2000"` goes to the answer path. -/
theorem C7_classifier_characterization_witness :
    (handle_incoming_sms sampleEnv (some { sampleCandidate with vetting_step := 4 })
        (lit "what is the pay like in Austin?")).route = Route.vettingQuestion
    ∧ (handle_incoming_sms sampleEnv (some { sampleCandidate with vetting_step := 4 })
        (lit "2000")).route = Route.vettingAnswer := by
  have h1 := C7_classifier_characterization sampleEnv
    { sampleCandidate with vetting_step := 4 } (lit "what is the pay like in Austin?")
    rfl (by decide) (by decide) (by decide) (by decide)
  have h2 := C7_classifier_characterization sampleEnv
    { sampleCandidate with vetting_step := 4 } (lit "2000")
    rfl (by decide) (by decide) (by decide) (by decide)
  exact ⟨h1.1.mpr (by decide), h2.2.mpr (by decide)⟩

/-- Every path through the handler body reports HTTP 200. -/
lemma handle_status_200 (env : Env) (lookup : Option Candidate) (raw : Str) :
    (handle_incoming_sms env lookup raw).status = 200 := by
  cases lookup with
  | none => rfl
  | some c =>
    simp only [handle_incoming_sms, vettingFlow, vettingQuestionBranch,
      vettingAnswerBranch, freeEngagementBranch, finishWithReply, baseOutcome]
    repeat' split <;> try rfl

/-- Every path through the handler body answers with the TwiML
acknowledgment or (for unknown senders and internal errors) an empty body. -/
lemma handle_body_minimal (env : Env) (lookup : Option Candidate) (raw : Str) :
    (handle_incoming_sms env lookup raw).httpBody = xmlAck
    ∨ (handle_incoming_sms env lookup raw).httpBody = [] := by
  cases lookup with
  | none => exact Or.inr rfl
  | some c =>
    simp only [handle_incoming_sms, vettingFlow, vettingQuestionBranch,
      vettingAnswerBranch, freeEngagementBranch, finishWithReply, baseOutcome]
    repeat' split
    all_goals first
      | exact Or.inl rfl
      | exact Or.inr rfl

/-- C8: the webhook endpoint returns HTTP 200 with an empty or TwiML
acknowledgment body for every environment, sender and message — unknown
senders and generator failures included — and the surrounding `try/except`
turns any internal exception into an empty 200 as well, so no error status
ever reaches the transport. -/
theorem C8_webhook_always_acks_200 (env : Env) (lookup : Option Candidate)
    (raw : Str) (e : Str) :
    (sms_webhook (Except.ok (handle_incoming_sms env lookup raw))).status = 200
    ∧ ((sms_webhook (Except.ok (handle_incoming_sms env lookup raw))).httpBody = xmlAck
        ∨ (sms_webhook (Except.ok (handle_incoming_sms env lookup raw))).httpBody = [])
    ∧ (sms_webhook (Except.error e)).status = 200
    ∧ (sms_webhook (Except.error e)).httpBody = [] := by
  exact ⟨handle_status_200 env lookup raw, handle_body_minimal env lookup raw, rfl, rfl⟩

/-- A zero extracted for the years-of-experience field is discarded
(`if years:` is false for `0`), so the row is unchanged. -/
lemma applyExtraction_years_zero (c : Candidate) (mb mu : Str)
    (h : firstNumber mb = some 0) :
    applyExtraction c (lit "years_experience") mb mu = c := by
  unfold applyExtraction
  rw [if_neg (by decide), if_pos rfl, h]
  rfl

/-- A zero extracted for the minimum-weekly-pay field is discarded
(`if pay:` is false for `0`), so the row is unchanged. -/
lemma applyExtraction_pay_zero (c : Candidate) (mb mu : Str)
    (h : firstNumber (removeCommas mb) = some 0) :
    applyExtraction c (lit "min_weekly_pay") mb mu = c := by
  unfold applyExtraction
  rw [if_neg (by decide), if_neg (by decide), if_neg (by decide), if_pos rfl, h]
  rfl

/-- C9: an answer to the years-of-experience question (step 2) or the
minimum-weekly-pay question (step 4) whose first digit run parses to `0`
leaves the corresponding field exactly as it was, while the vetting-log row
for that step is still appended and the step still advances by one. -/
theorem C9_zero_answer_discarded_but_step_advances (env env2 : Env)
    (c c2 : Candidate) (raw raw2 : Str)
    (h1 : c.ai_vetting_status = lit "in_progress") (h2 : c.vetting_step = 2)
    (h3 : msgUpperOf raw ∉ STOP_WORDS) (h4 : msgUpperOf raw ∉ START_WORDS)
    (h5 : classifiedAsQuestion (pyStrip raw) = false)
    (h6 : firstNumber (pyStrip raw) = some 0)
    (g1 : c2.ai_vetting_status = lit "in_progress") (g2 : c2.vetting_step = 4)
    (g3 : msgUpperOf raw2 ∉ STOP_WORDS) (g4 : msgUpperOf raw2 ∉ START_WORDS)
    (g5 : classifiedAsQuestion (pyStrip raw2) = false)
    (g6 : firstNumber (removeCommas (pyStrip raw2)) = some 0) :
    ((handle_incoming_sms env (some c) raw).candidate.map Candidate.years_experience
        = some c.years_experience
      ∧ (handle_incoming_sms env (some c) raw).candidate.map Candidate.vetting_step
        = some 3
      ∧ (handle_incoming_sms env (some c) raw).newLogs
        = [{ candidate_id := c.id, question_id := lit "experience",
             question := (questionAt 2).question, response := pyStrip raw, step := 2 }])
    ∧ ((handle_incoming_sms env2 (some c2) raw2).candidate.map Candidate.min_weekly_pay
        = some c2.min_weekly_pay
      ∧ (handle_incoming_sms env2 (some c2) raw2).candidate.map Candidate.vetting_step
        = some 5
      ∧ (handle_incoming_sms env2 (some c2) raw2).newLogs
        = [{ candidate_id := c2.id, question_id := lit "min_pay",
             question := (questionAt 4).question, response := pyStrip raw2, step := 4 }]) := by
  constructor
  · rw [handle_eq_vettingFlow env c raw h3 h4 h1,
      vettingFlow_eq_answer env c (pyStrip raw) (msgUpperOf raw) (by omega) (by omega) h5,
      h2]
    simp only [vettingAnswerBranch]
    rw [if_pos (by decide),
      show (questionAt 2).field = lit "years_experience" from rfl,
      applyExtraction_years_zero c (pyStrip raw) (msgUpperOf raw) h6]
    exact ⟨rfl, rfl, rfl⟩
  · rw [handle_eq_vettingFlow env2 c2 raw2 g3 g4 g1,
      vettingFlow_eq_answer env2 c2 (pyStrip raw2) (msgUpperOf raw2) (by omega) (by omega) g5,
      g2]
    simp only [vettingAnswerBranch]
    rw [if_pos (by decide),
      show (questionAt 4).field = lit "min_weekly_pay" from rfl,
      applyExtraction_pay_zero c2 (pyStrip raw2) (msgUpperOf raw2) g6]
    exact ⟨rfl, rfl, rfl⟩

/-- Witness for C9: the literal answer `"0"` at steps 2 and 4. -/
theorem C9_zero_answer_discarded_but_step_advances_witness :
    (handle_incoming_sms sampleEnv (some { sampleCandidate with vetting_step := 2 })
        (lit "0")).candidate.map Candidate.years_experience
      = some sampleCandidate.years_experience
    ∧ (handle_incoming_sms sampleEnv (some { sampleCandidate with vetting_step := 2 })
        (lit "0")).candidate.map Candidate.vetting_step = some 3
    ∧ (handle_incoming_sms sampleEnv (some { sampleCandidate with vetting_step := 4 })
        (lit "0")).candidate.map Candidate.min_weekly_pay
      = some sampleCandidate.min_weekly_pay := by
  have h := C9_zero_answer_discarded_but_step_advances sampleEnv sampleEnv
    { sampleCandidate with vetting_step := 2 } { sampleCandidate with vetting_step := 4 }
    (lit "0") (lit "0")
    rfl rfl (by decide) (by decide) (by decide) (by decide)
    rfl rfl (by decide) (by decide) (by decide) (by decide)
  exact ⟨h.1.1, h.1.2.1, h.2.1⟩

/-! ## Machinery for C10 -/

/-- Forget the `active` flag of a row (for stating active-noninterference). -/
def clearActive (x : Candidate) : Candidate := { x with active := true }

/-- An outcome with the `active` flag of its candidate row forgotten. -/
def scrub (o : Outcome) : Outcome := { o with candidate := o.candidate.map clearActive }

/-- A list with a nonempty prefix is nonempty. -/
lemma append_ne_nil_left (a b : Str) (h : a ≠ []) : a ++ b ≠ [] := by
  cases a with
  | nil => exact absurd rfl h
  | cons x t => simp

/-- With Twilio configured, a nonempty composed reply is sent. -/
lemma sendSms_ne_nil (env : Env) (r : Str) (htw : env.twilio = true) (hr : r ≠ []) :
    sendSms env (some r) ≠ [] := by
  cases r with
  | nil => exact absurd rfl hr
  | cons x t => simp [sendSms, htw]

/-- The tangential-question fallback reply is never empty. -/
lemma questionFallbackMsg_ne_nil (fn : Str) (q : Question) :
    questionFallbackMsg fn q ≠ [] := by
  unfold questionFallbackMsg
  repeat' apply append_ne_nil_left
  decide

/-- The reply to a tangential question is never empty. -/
lemma tangentialReply_ne_nil (env : Env) (c : Candidate) (mb : Str) (q : Question) :
    tangentialReply env c mb q ≠ [] := by
  simp only [tangentialReply]
  cases hai : (if env.anthropic then generate_ai_response env c mb (fetchJobs env (disciplineOf c)) else none) with
  | none => exact questionFallbackMsg_ne_nil c.first_name q
  | some a =>
    show (if a.isEmpty = true then questionFallbackMsg c.first_name q
          else aiWithPromptMsg a q) ≠ []
    by_cases he : a.isEmpty
    · rw [if_pos he]
      exact questionFallbackMsg_ne_nil c.first_name q
    · rw [if_neg he]
      unfold aiWithPromptMsg
      apply append_ne_nil_left
      cases a with
      | nil => exact absurd rfl he
      | cons x t => simp

/-- The static fallback reply is never empty. -/
lemma get_fallback_response_ne_nil (m fn : Str) : get_fallback_response m fn ≠ [] := by
  unfold get_fallback_response
  split <;>
    · repeat' apply append_ne_nil_left
      decide

/-- The free-engagement reply is never empty. -/
lemma freeReply_ne_nil (env : Env) (c : Candidate) (mb : Str) :
    freeReply env c mb ≠ [] := by
  simp only [freeReply]
  cases hai : (if env.anthropic then generate_ai_response env c mb (fetchJobs env (disciplineOf c)) else none) with
  | none => exact get_fallback_response_ne_nil mb c.first_name
  | some a =>
    show (if a.isEmpty = true then get_fallback_response mb c.first_name else a) ≠ []
    by_cases he : a.isEmpty
    · rw [if_pos he]
      exact get_fallback_response_ne_nil mb c.first_name
    · rw [if_neg he]
      cases a with
      | nil => exact absurd rfl he
      | cons x t => simp

/-- The completion reply is never empty. -/
lemma completionMsg_ne_nil (fn : Str) : completionMsg fn ≠ [] := by
  unfold completionMsg
  repeat' apply append_ne_nil_left
  decide

/-- The interest reply is never empty. -/
lemma yesMsg_ne_nil (fn : Str) : yesMsg fn ≠ [] := by
  unfold yesMsg
  repeat' apply append_ne_nil_left
  decide

/-- The HELP reply is never empty. -/
lemma helpMsg_ne_nil (fn : Str) : helpMsg fn ≠ [] := by
  unfold helpMsg
  repeat' apply append_ne_nil_left
  decide

/-- The recruiter-call reply is never empty. -/
lemma callMeMsg_ne_nil (fn : Str) : callMeMsg fn ≠ [] := by
  unfold callMeMsg
  repeat' apply append_ne_nil_left
  decide

/-- The welcome-back reply is never empty. -/
lemma welcomeBackMsg_ne_nil (fn : Str) : welcomeBackMsg fn ≠ [] := by
  unfold welcomeBackMsg
  repeat' apply append_ne_nil_left
  decide

/-- The vetting-answer path always sends the completion reply. -/
lemma vettingAnswerBranch_sent (env : Env) (c : Candidate) (mb mu : Str)
    (q : Question) (k : Nat) :
    (vettingAnswerBranch env c mb mu q k).sent
      = sendSms env (some (completionMsg c.first_name)) := by
  simp only [vettingAnswerBranch]
  by_cases h : k + 1 ≤ VETTING_QUESTIONS.length
  · rw [if_pos h]; rfl
  · rw [if_neg h]; rfl

/-- Indexing succeeds on every step the handler admits into the flow. -/
lemma pyIndex_total (k : Nat) (h : k ≤ 5) :
    ∃ q, pyIndex VETTING_QUESTIONS ((k : Int) - 1) = some q := by
  interval_cases k <;> exact ⟨_, rfl⟩

/-- The tangential-question path is insensitive to the `active` flag once
that flag is forgotten in the outcome. -/
lemma scrub_vettingQuestionBranch (env : Env) (a1 a2 : Bool) (cid : Nat)
    (cfn cln : Str) (clt cdis : Option Str) (chc chs : Str) (cls : Option Str)
    (cye : Option Nat) (cad : Option Str) (cmp : Option Nat) (cot : Option Bool)
    (cst : Str) (cvs : Nat) (cru csp : Option Str) (mb : Str) (q : Question) :
    scrub (vettingQuestionBranch env
        ⟨cid, cfn, cln, clt, cdis, chc, chs, cls, cye, cad, cmp, cot, cst, cvs, a1, cru, csp⟩ mb q)
      = scrub (vettingQuestionBranch env
        ⟨cid, cfn, cln, clt, cdis, chc, chs, cls, cye, cad, cmp, cot, cst, cvs, a2, cru, csp⟩ mb q) := rfl

/-- The vetting-answer path is insensitive to the `active` flag once that
flag is forgotten in the outcome. -/
lemma scrub_vettingAnswerBranch (env : Env) (a1 a2 : Bool) (cid : Nat)
    (cfn cln : Str) (clt cdis : Option Str) (chc chs : Str) (cls : Option Str)
    (cye : Option Nat) (cad : Option Str) (cmp : Option Nat) (cot : Option Bool)
    (cst : Str) (cvs : Nat) (cru csp : Option Str) (mb mu : Str) (q : Question)
    (k : Nat) :
    scrub (vettingAnswerBranch env
        ⟨cid, cfn, cln, clt, cdis, chc, chs, cls, cye, cad, cmp, cot, cst, cvs, a1, cru, csp⟩ mb mu q k)
      = scrub (vettingAnswerBranch env
        ⟨cid, cfn, cln, clt, cdis, chc, chs, cls, cye, cad, cmp, cot, cst, cvs, a2, cru, csp⟩ mb mu q k) := by
  simp only [vettingAnswerBranch, applyExtraction]
  split_ifs <;> rfl

/-- The whole vetting flow is insensitive to the `active` flag once that
flag is forgotten in the outcome. -/
lemma scrub_vettingFlow (env : Env) (a1 a2 : Bool) (cid : Nat) (cfn cln : Str)
    (clt cdis : Option Str) (chc chs : Str) (cls : Option Str) (cye : Option Nat)
    (cad : Option Str) (cmp : Option Nat) (cot : Option Bool) (cst : Str)
    (cvs : Nat) (cru csp : Option Str) (mb mu : Str) :
    scrub (vettingFlow env
        ⟨cid, cfn, cln, clt, cdis, chc, chs, cls, cye, cad, cmp, cot, cst, cvs, a1, cru, csp⟩ mb mu)
      = scrub (vettingFlow env
        ⟨cid, cfn, cln, clt, cdis, chc, chs, cls, cye, cad, cmp, cot, cst, cvs, a2, cru, csp⟩ mb mu) := by
  simp only [vettingFlow]
  by_cases h1 : cvs ≤ VETTING_QUESTIONS.length
  · rw [if_pos h1, if_pos h1]
    cases hpi : pyIndex VETTING_QUESTIONS ((cvs : Int) - 1) with
    | none => rfl
    | some q =>
      by_cases h2 : classifiedAsQuestion mb = true
      · simp only [if_pos h2]
        exact scrub_vettingQuestionBranch env a1 a2 cid cfn cln clt cdis chc chs
          cls cye cad cmp cot cst cvs cru csp mb q
      · simp only [if_neg h2]
        exact scrub_vettingAnswerBranch env a1 a2 cid cfn cln clt cdis chc chs
          cls cye cad cmp cot cst cvs cru csp mb mu q cvs
  · rw [if_neg h1, if_neg h1]
    rfl

/-- C10: the SMS webhook never reads the candidate's `active` flag — two
runs on rows differing only in `active` classify the message identically
and produce identical outcomes apart from the `active` field itself (which
only the STOP/START branches write) — and in particular an opted-out
candidate still gets an outbound reply to every non-command message (in any
state whose step admits a reply at all). -/
theorem C10_processing_ignores_active (env : Env) (c : Candidate) (a1 a2 : Bool)
    (raw : Str) :
    scrub (handle_incoming_sms env (some { c with active := a1 }) raw)
      = scrub (handle_incoming_sms env (some { c with active := a2 }) raw)
    ∧ (c.active = false → env.twilio = true →
        msgUpperOf raw ∉ STOP_WORDS → msgUpperOf raw ∉ START_WORDS →
        (c.ai_vetting_status = lit "in_progress" → c.vetting_step ≤ 5) →
        (handle_incoming_sms env (some c) raw).sent ≠ []) := by
  constructor
  · cases c with
    | mk cid cfn cln clt cdis chc chs cls cye cad cmp cot cst cvs cac cru csp =>
      simp only [handle_incoming_sms]
      split_ifs <;> first
        | rfl
        | exact scrub_vettingFlow env a1 a2 cid cfn cln clt cdis chc chs cls cye
            cad cmp cot cst cvs cru csp (pyStrip raw) (pyStrip (upper (pyStrip raw)))
  · intro _ htw h3 h4 hstep
    have h3' : pyStrip (upper (pyStrip raw)) ∉ STOP_WORDS := h3
    have h4' : pyStrip (upper (pyStrip raw)) ∉ START_WORDS := h4
    simp only [handle_incoming_sms]
    rw [if_neg h3', if_neg h4']
    by_cases hip : c.ai_vetting_status = lit "in_progress"
    · rw [if_pos hip]
      have hle : c.vetting_step ≤ 5 := hstep hip
      simp only [vettingFlow]
      rw [if_pos (le_trans hle (by decide))]
      obtain ⟨q, hq⟩ := pyIndex_total c.vetting_step hle
      rw [hq]
      show (if classifiedAsQuestion (pyStrip raw) = true then
              vettingQuestionBranch env c (pyStrip raw) q
            else vettingAnswerBranch env c (pyStrip raw)
              (pyStrip (upper (pyStrip raw))) q c.vetting_step).sent ≠ []
      split
      · exact sendSms_ne_nil env _ htw (tangentialReply_ne_nil env c (pyStrip raw) q)
      · rw [vettingAnswerBranch_sent]
        exact sendSms_ne_nil env _ htw (completionMsg_ne_nil c.first_name)
    · rw [if_neg hip]
      by_cases hyes : pyStrip (upper (pyStrip raw)) ∈ YES_WORDS
      · rw [if_pos hyes]
        exact sendSms_ne_nil env _ htw (yesMsg_ne_nil c.first_name)
      · rw [if_neg hyes]
        by_cases hhelp : pyStrip (upper (pyStrip raw)) = lit "HELP"
        · rw [if_pos hhelp]
          exact sendSms_ne_nil env _ htw (helpMsg_ne_nil c.first_name)
        · rw [if_neg hhelp]
          by_cases hcall : callMeCond (pyStrip (upper (pyStrip raw))) = true
          · rw [if_pos hcall]
            exact sendSms_ne_nil env _ htw (callMeMsg_ne_nil c.first_name)
          · rw [if_neg hcall]
            exact sendSms_ne_nil env _ htw (freeReply_ne_nil env c (pyStrip raw))

/-- Witness for C10: an opted-out completed candidate asking a question is
processed identically to the opted-in row and still receives the reply. -/
theorem C10_processing_ignores_active_witness :
    scrub (handle_incoming_sms sampleEnv
        (some { completedCandidate with active := false }) (lit "any jobs for me?"))
      = scrub (handle_incoming_sms sampleEnv
        (some { completedCandidate with active := true }) (lit "any jobs for me?"))
    ∧ (handle_incoming_sms sampleEnv (some { completedCandidate with active := false })
        (lit "any jobs for me?")).sent ≠ [] := by
  have h := C10_processing_ignores_active sampleEnv
    { completedCandidate with active := false } false true (lit "any jobs for me?")
  refine ⟨h.1, h.2 rfl rfl (by decide) (by decide) (by decide)⟩

end ThrivingCare
